import Mathlib

/-!
Shallow embedding of the Filter & Aggregate Engine of `src/app.py`
(an earthquake dashboard).  The source table `df_earthquakes` is modelled
as a `Table`: a list of `Record`s (the rows, in file order) together with
the list of column names that exist beyond the fixed `Record` schema
(`extraCols`, empty at load time).  Each Dash callback becomes a function
from the source table and its `Input` values to the figure data it
returns, paired with the state of the source table after the call
(pandas boolean-mask indexing returns a fresh frame, so the column
assignment `filtered_df["year"] = ...` in `update_bar_chart` lands on the
copy, never on the source).

Floating-point columns (`magnitude`, `depth`, `latitude`, `longitude`)
are modelled as rationals; `date_time` keeps the five parsed components
(format `%d-%m-%Y %H:%M`), of which the callbacks only ever use `.year`.
-/

namespace Quake

/-- Parsed timestamp of a row: `pd.to_datetime(..., format="%d-%m-%Y %H:%M")`. -/
structure DateTime where
  day : Nat
  month : Nat
  year : Int
  hour : Nat
  minute : Nat
deriving DecidableEq, Repr

/-- One row of `df_earthquakes` (the columns the callbacks read). -/
structure Record where
  date_time : DateTime
  country : String
  latitude : Rat
  longitude : Rat
  magnitude : Rat
  depth : Rat
  depth_label : String
deriving DecidableEq, Repr

/-- The source dataframe: its rows plus any column names added beyond the
`Record` schema (none at load time). -/
structure Table where
  rows : List Record
  extraCols : List String
deriving DecidableEq, Repr

/-- Embeds `df["date_time"].dt.year.between(a, b)` (inclusive on both ends). -/
def yearBetween (yr : Int × Int) (r : Record) : Bool :=
  decide (yr.1 ≤ r.date_time.year ∧ r.date_time.year ≤ yr.2)

/-- Embeds the `if selected_country == "All Countries": ... else: ...`
filter block that `update_bubble_map`, `update_bar_chart` and
`update_scatter_chart` each repeat verbatim: boolean-mask selection of the
rows passing the year-range test, conjoined with a country-equality test
unless the sentinel is selected. -/
def countryYearFiltered (rows : List Record) (selected_country : String)
    (years_range : Int × Int) : List Record :=
  if selected_country = "All Countries" then
    rows.filter (fun r => yearBetween years_range r)
  else
    rows.filter (fun r => decide (r.country = selected_country) && yearBetween years_range r)

/-- Data of the `px.scatter_geo` bubble-map figure: the plotted rows
(lat/lon position, magnitude as colour and size, country and date in the
hover data) and the title. -/
structure GeoFig where
  points : List Record
  title : String
deriving DecidableEq, Repr

/-- Data of the `px.line` trend figure: the plotted rows (date on x,
magnitude on y, grouped and coloured by country) and the title. -/
structure LineFig where
  points : List Record
  title : String
deriving DecidableEq, Repr

/-- Title string shared by the two figures of `update_bubble_map`. -/
def bubbleTitle (selected_country : String) (years_range : Int × Int) : String :=
  "Earthquakes in " ++ selected_country ++ " from " ++ toString years_range.1
    ++ " to " ++ toString years_range.2

/-- Embeds the callback `update_bubble_map(selected_country, years_range)`:
filters the source by country and year range and feeds the same filtered
frame to `px.scatter_geo` and `px.line`.  The second component is the
source table after the call (the callback never writes to it). -/
def update_bubble_map (tbl : Table) (selected_country : String)
    (years_range : Int × Int) : (GeoFig × LineFig) × Table :=
  let filtered_df := countryYearFiltered tbl.rows selected_country years_range
  ((⟨filtered_df, bubbleTitle selected_country years_range⟩,
    ⟨filtered_df, bubbleTitle selected_country years_range⟩), tbl)

/-- Data of the `px.scatter` depth/magnitude figure: the plotted rows
(depth on x, magnitude on y, coloured by depth label) and the title. -/
structure ScatterFig where
  points : List Record
  title : String
deriving DecidableEq, Repr

/-- Title string of the scatter figure. -/
def scatterTitle (selected_country : String) (years_range : Int × Int) : String :=
  "Distribution of earthquakes according to depth label in " ++ selected_country
    ++ " from " ++ toString years_range.1 ++ " to " ++ toString years_range.2
    ++ " per depth label"

/-- Embeds the callback `update_scatter_chart(selected_country,
selected_depth, years_range)`.  `df_copy = df_earthquakes.copy()` keeps the
original integer index, modelled by `List.enum`; the final selection
`years_df[df_earthquakes["depth_label"].isin(selected_depth)]` indexes the
country+year subset with a boolean mask computed over the FULL source
table, which pandas aligns by index label: a row of `years_df` with
original index `i` survives iff entry `i` of the full-table mask is true. -/
def update_scatter_chart (tbl : Table) (selected_country : String)
    (selected_depth : List String) (years_range : Int × Int) : ScatterFig × Table :=
  let df_copy := tbl.rows.enum
  let years_df :=
    if selected_country = "All Countries" then
      df_copy.filter (fun p => yearBetween years_range p.2)
    else
      df_copy.filter (fun p =>
        decide (p.2.country = selected_country) && yearBetween years_range p.2)
  let mask := tbl.rows.map (fun r => decide (r.depth_label ∈ selected_depth))
  let filtered_df := years_df.filter (fun p => mask.getD p.1 false)
  (⟨filtered_df.map (fun p => p.2), scatterTitle selected_country years_range⟩, tbl)

/-- Number of rows of `l` whose year is `y` and whose depth label is `c`:
the size that `groupby(["year", "depth_label"]).size()` reports for the
group keyed `(y, c)` when that group is present. -/
def countPair (l : List Record) (y : Int) (c : String) : Nat :=
  (l.filter (fun r => decide (r.date_time.year = y ∧ r.depth_label = c))).length

/-- Distinct `(year, depth_label)` keys occurring in `l`: the group keys of
`groupby(["year", "depth_label"])` (their order is irrelevant downstream,
the pivot reindexes them). -/
def yearLabelKeys (l : List Record) : List (Int × String) :=
  (l.map (fun r => (r.date_time.year, r.depth_label))).dedup

/-- Embeds `filtered_df.groupby(["year", "depth_label"]).size()`: one entry
per present key, carrying the group size. -/
def groupSizes (l : List Record) : List ((Int × String) × Nat) :=
  (yearLabelKeys l).map (fun k => (k, countPair l k.1 k.2))

/-- Cell `(y, c)` of the pivot
`pivot(index="year", columns="depth_label", values="count")`: the size of
group `(y, c)` when that group exists, `none` (pandas `NaN`) otherwise. -/
def pivotCell (l : List Record) (y : Int) (c : String) : Option Nat :=
  ((groupSizes l).find? (fun e => decide (e.1 = (y, c)))).map (fun e => e.2)

/-- Row index of the pivot: the distinct years of `l`, ascending (pandas
sorts the index). -/
def pivotIndex (l : List Record) : List Int :=
  List.insertionSort (fun a b => a ≤ b) ((l.map (fun r => r.date_time.year)).dedup)

/-- Code-point lexicographic comparison of character lists. -/
def charListLe : List Char → List Char → Bool
  | [], _ => true
  | _ :: _, [] => false
  | a :: as, b :: bs =>
    if a.val < b.val then true
    else if b.val < a.val then false
    else charListLe as bs

/-- Code-point lexicographic comparison of strings: the order in which
pandas sorts string group keys and column labels. -/
def strLe (a b : String) : Bool :=
  charListLe a.data b.data

/-- Column labels of the pivot: the distinct depth labels of `l`,
ascending (pandas sorts the columns). -/
def pivotColumns (l : List Record) : List String :=
  List.insertionSort (fun a b => strLe a b = true) ((l.map (fun r => r.depth_label)).dedup)

/-- Embeds the list comprehension over `desired_order = ["Low", "Mid", "High"]`
keeping the labels that are both selected in the checklist and present as a
pivot column. -/
def selectedColumns (selected_depth : List String) (l : List Record) : List String :=
  ["Low", "Mid", "High"].filter
    (fun col => decide (col ∈ selected_depth) && decide (col ∈ pivotColumns l))

/-- Data of the figure `update_bar_chart` returns: either the bare
`px.bar()` shell carrying only a title (the `df.empty` branch), or a
stacked-bar chart over the pivoted table, `cells` being its rows in
`years` order, each row in `columns` order, `none` marking a missing cell. -/
inductive BarFig where
  | emptyShell (title : String)
  | chart (title : String) (years : List Int) (columns : List String)
      (cells : List (List (Option Nat)))
deriving DecidableEq, Repr

/-- Title string of the bar figure. -/
def barTitle (selected_country : String) (years_range : Int × Int) : String :=
  "Number of earthquakes according to the depth label in " ++ selected_country
    ++ " from " ++ toString years_range.1 ++ " to " ++ toString years_range.2

/-- Embeds the callback `update_bar_chart(selected_country, years_range,
selected_depth)`: country+year filter, `filtered_df["year"] = ...` (a write
to the fresh frame the boolean mask produced, so the source columns are
untouched; modelled on the copy below), groupby/pivot, column selection in
the fixed `[Low, Mid, High]` order, then either the empty shell (a pandas
frame is `.empty` iff it has no rows or no columns) or the stacked chart. -/
def update_bar_chart (tbl : Table) (selected_country : String)
    (years_range : Int × Int) (selected_depth : List String) : BarFig × Table :=
  let filtered_rows := countryYearFiltered tbl.rows selected_country years_range
  let filtered_df : Table := ⟨filtered_rows, tbl.extraCols ++ ["year"]⟩
  let cols := selectedColumns selected_depth filtered_df.rows
  let years := pivotIndex filtered_df.rows
  if years = [] ∨ cols = [] then
    (BarFig.emptyShell (barTitle selected_country years_range), tbl)
  else
    (BarFig.chart (barTitle selected_country years_range) years cols
      (years.map (fun y => cols.map (fun c => pivotCell filtered_df.rows y c))), tbl)

/-- Rows of `df_earthquakes` passing the pie-chart filter: year in range
and `magnitude >= selected_magnitude`.  No country test appears. -/
def pieFiltered (rows : List Record) (years_range : Int × Int)
    (selected_magnitude : Rat) : List Record :=
  rows.filter (fun r => yearBetween years_range r && decide (selected_magnitude ≤ r.magnitude))

/-- Embeds `groupby(["country"]).size().reset_index(name="count")`: one
`(country, count)` pair per distinct country, in ascending country order
(pandas groupby sorts the group keys). -/
def countryGroups (l : List Record) : List (String × Nat) :=
  (List.insertionSort (fun a b => strLe a b = true) ((l.map (fun r => r.country)).dedup)).map
    (fun c => (c, (l.filter (fun r => decide (r.country = c))).length))

/-- Data of the `px.pie` figure: the `(country, count)` slices and the
title (as set by the final `update_layout` call). -/
structure PieFig where
  slices : List (String × Nat)
  title : String
deriving DecidableEq, Repr

/-- Title string the pie callback sets with `update_layout`. -/
def pieTitle (years_range : Int × Int) (selected_magnitude : Rat) : String :=
  "Top 5 earthquakes from " ++ toString years_range.1 ++ " to "
    ++ toString years_range.2 ++ " with mag >= " ++ toString selected_magnitude

/-- Embeds the callback `update_pie_chart(years_range, selected_magnitude)`:
year+magnitude filter, groupby country with sizes, `.head(5)` — the first
five groups in the order the grouping produced, with no re-sorting by
count. -/
def update_pie_chart (tbl : Table) (years_range : Int × Int)
    (selected_magnitude : Rat) : PieFig × Table :=
  let filtered_df := pieFiltered tbl.rows years_range selected_magnitude
  let grouped := (countryGroups filtered_df).take 5
  (⟨grouped, pieTitle years_range selected_magnitude⟩, tbl)

/-- Title carried by a bar figure (both constructors set one). -/
def BarFig.figTitle : BarFig → String
  | .emptyShell t => t
  | .chart t _ _ _ => t

/-- Row index (years) of the bar figure; the empty shell has none. -/
def BarFig.years : BarFig → List Int
  | .emptyShell _ => []
  | .chart _ ys _ _ => ys

/-- Column labels of the bar figure; the empty shell has none. -/
def BarFig.columns : BarFig → List String
  | .emptyShell _ => []
  | .chart _ _ cs _ => cs

/-- Association lookup: the value stored beside the first occurrence of
`k` in `ks`, reading `vs` positionally. -/
def lookupIn {α β : Type} [DecidableEq α] (ks : List α) (vs : List β) (k : α) : Option β :=
  ((ks.zip vs).find? (fun p => decide (p.1 = k))).map (fun p => p.2)

/-- Cell of the bar figure at row `y`, column `c`: `none` when the figure
is the empty shell, when `y` or `c` is not an axis value, or when the
pivot left the cell missing. -/
def BarFig.cellAt : BarFig → Int → String → Option Nat
  | .emptyShell _, _, _ => none
  | .chart _ ys cs cells, y, c =>
    match lookupIn ys cells y with
    | none => none
    | some row => (lookupIn cs row c).join

/-- Sum of all counts drawn by the bar figure (missing cells contribute
nothing). -/
def BarFig.cellSum : BarFig → Nat
  | .emptyShell _ => 0
  | .chart _ _ _ cells => (cells.map (fun row => (row.map (fun o => o.getD 0)).sum)).sum

/-- Formulation of the scatter selection taken from the spec text, for
comparison with the mask-alignment mechanics of `update_scatter_chart`:
apply the depth-label membership test directly to the already
country+year-filtered subset. -/
def scatterDirectSpec (rows : List Record) (selected_country : String)
    (selected_depth : List String) (years_range : Int × Int) : List Record :=
  (countryYearFiltered rows selected_country years_range).filter
    (fun r => decide (r.depth_label ∈ selected_depth))

/-- Formulation, taken from the spec text, of the alternative pie
behaviour that the code does NOT implement: the five country groups of
largest count (count descending). -/
def topCountriesByCountSpec (l : List Record) : List (String × Nat) :=
  (List.insertionSort (fun a b => b.2 ≤ a.2) (countryGroups l)).take 5

/-- Concrete record builder used by the sample tables below. -/
def mkRec (y : Int) (c : String) (m : Rat) (d : Rat) (lab : String) : Record :=
  ⟨⟨1, 1, y, 0, 0⟩, c, 0, 0, m, d, lab⟩

/-- Small sample table used to instantiate theorems with hypotheses. -/
def sampleTable : Table :=
  ⟨[mkRec 2010 "Chile" 7 10 "Low", mkRec 2010 "Peru" 6 300 "High",
    mkRec 2012 "Chile" 5 20 "Low", mkRec 2012 "Chile" 8 150 "Mid"], []⟩

/-- Sample table with six countries, the alphabetically last one holding
the most rows; separates group order from count order in the pie query. -/
def sixCountryTable : Table :=
  ⟨[mkRec 2005 "A" 7 10 "Low", mkRec 2006 "B" 7 10 "Low",
    mkRec 2007 "C" 7 10 "Low", mkRec 2008 "D" 7 10 "Low",
    mkRec 2009 "E" 7 10 "Low", mkRec 2010 "F" 7 10 "Low",
    mkRec 2011 "F" 8 10 "Low"], []⟩

/-! Helper lemmas about the embedded operations. -/

lemma mem_countryYearFiltered {rows : List Record} {c : String} {yr : Int × Int}
    {r : Record} :
    r ∈ countryYearFiltered rows c yr ↔
      r ∈ rows ∧ (yr.1 ≤ r.date_time.year ∧ r.date_time.year ≤ yr.2) ∧
        (c = "All Countries" ∨ r.country = c) := by
  unfold countryYearFiltered yearBetween
  by_cases h : c = "All Countries" <;> (simp [h, List.mem_filter]; try tauto)

lemma map_snd_filter_enumFrom {α : Type} (h : α → Bool) :
    ∀ (l : List α) (n : Nat),
      ((List.enumFrom n l).filter (fun p => h p.2)).map (fun p => p.2) = l.filter h := by
  intro l
  induction l with
  | nil => intro n; rfl
  | cons a as ih =>
    intro n
    by_cases ha : h a <;> simp [List.enumFrom, List.filter_cons, ha, ih]

lemma mask_getD {rows : List Record} (f : Record → Bool) {p : Nat × Record}
    (hp : p ∈ rows.enum) : (rows.map f).getD p.1 false = f p.2 := by
  have h := List.mem_enum_iff_getElem?.mp hp
  rw [List.getD_eq_getElem?_getD, List.getElem?_map, h]
  rfl

lemma scatter_branch (rows : List Record) (pred g : Record → Bool) :
    (((rows.enum.filter (fun p => pred p.2)).filter
        (fun p => (rows.map g).getD p.1 false)).map (fun p => p.2))
      = (rows.filter pred).filter g := by
  have hcong : ∀ p ∈ rows.enum.filter (fun q => pred q.2),
      ((rows.map g).getD p.1 false) = g p.2 := by
    intro p hp
    exact mask_getD g (List.mem_of_mem_filter hp)
  rw [List.filter_congr hcong, List.filter_filter, List.filter_filter]
  exact map_snd_filter_enumFrom (fun r => g r && pred r) rows 0

lemma scatter_points_eq (tbl : Table) (c : String) (dl : List String)
    (yr : Int × Int) :
    (update_scatter_chart tbl c dl yr).1.points = scatterDirectSpec tbl.rows c dl yr := by
  unfold update_scatter_chart scatterDirectSpec countryYearFiltered
  by_cases h : c = "All Countries"
  · simpa [h] using
      scatter_branch tbl.rows (fun r => yearBetween yr r)
        (fun r => decide (r.depth_label ∈ dl))
  · simpa [h] using
      scatter_branch tbl.rows (fun r => decide (r.country = c) && yearBetween yr r)
        (fun r => decide (r.depth_label ∈ dl))

lemma find_map_pair {α β : Type} [DecidableEq α] (ks : List α) (g : α → β) (k : α) :
    ((ks.map (fun a => (a, g a))).find? (fun e => decide (e.1 = k))).map (fun e => e.2)
      = if k ∈ ks then some (g k) else none := by
  induction ks with
  | nil => rfl
  | cons a as ih =>
    by_cases h : a = k
    · subst h
      simp [List.find?]
    · simp only [List.map_cons, List.find?, decide_eq_true_eq, h, decide_False]
      rw [ih]
      simp [List.mem_cons, Ne.symm h]

lemma lookupIn_map {α β : Type} [DecidableEq α] (ks : List α) (g : α → β) (k : α) :
    lookupIn ks (ks.map g) k = if k ∈ ks then some (g k) else none := by
  unfold lookupIn
  have hz : ks.zip (ks.map g) = ks.map (fun a => (a, g a)) := by
    simpa using List.zip_map' id g ks
  rw [hz, find_map_pair]

lemma pivotCell_eq (l : List Record) (y : Int) (c : String) :
    pivotCell l y c
      = if (y, c) ∈ yearLabelKeys l then some (countPair l y c) else none := by
  unfold pivotCell groupSizes
  rw [find_map_pair (yearLabelKeys l) (fun k => countPair l k.1 k.2) (y, c)]
  by_cases hm : (y, c) ∈ yearLabelKeys l <;> simp [hm]

lemma mem_yearLabelKeys (l : List Record) (y : Int) (c : String) :
    (y, c) ∈ yearLabelKeys l ↔ 0 < countPair l y c := by
  unfold yearLabelKeys countPair
  rw [← List.countP_eq_length_filter, List.countP_pos_iff]
  simp only [List.mem_dedup, List.mem_map, Prod.mk.injEq, decide_eq_true_eq]

lemma pivotCell_getD (l : List Record) (y : Int) (c : String) :
    (pivotCell l y c).getD 0 = countPair l y c := by
  rw [pivotCell_eq]
  by_cases h : (y, c) ∈ yearLabelKeys l
  · simp [h]
  · have h0 : ¬ 0 < countPair l y c := fun hp => h ((mem_yearLabelKeys l y c).mpr hp)
    simp [h]
    omega

lemma filter_or_disjoint {α : Type} (p q : α → Bool) :
    ∀ l : List α, (∀ a ∈ l, ¬(p a = true ∧ q a = true)) →
      (l.filter (fun a => p a || q a)).length
        = (l.filter p).length + (l.filter q).length := by
  intro l
  induction l with
  | nil => intro _; rfl
  | cons a as ih =>
    intro h
    have ha := h a (List.mem_cons_self a as)
    have has : ∀ b ∈ as, ¬(p b = true ∧ q b = true) := fun b hb =>
      h b (List.mem_cons_of_mem a hb)
    by_cases hp : p a = true <;> by_cases hq : q a = true
    · exact absurd ⟨hp, hq⟩ ha
    · simp [List.filter_cons, hp, hq, ih has]
      omega
    · simp [List.filter_cons, hp, hq, ih has]
      omega
    · simp [List.filter_cons, hp, hq, ih has]

lemma sum_counts_filter {α κ : Type} [DecidableEq κ] (l : List α) (key : α → κ)
    (p : α → Bool) :
    ∀ keys : List κ, keys.Nodup →
      (keys.map (fun k => (l.filter (fun a => decide (key a = k) && p a)).length)).sum
        = (l.filter (fun a => decide (key a ∈ keys) && p a)).length := by
  intro keys
  induction keys with
  | nil => intro _; simp
  | cons k ks ih =>
    intro hnd
    rw [List.nodup_cons] at hnd
    obtain ⟨hk, hks⟩ := hnd
    rw [List.map_cons, List.sum_cons, ih hks]
    rw [← filter_or_disjoint (fun a => decide (key a = k) && p a)
      (fun a => decide (key a ∈ ks) && p a) l ?disj]
    case disj =>
      intro a _ hcontra
      obtain ⟨h1, h2⟩ := hcontra
      rw [Bool.and_eq_true, decide_eq_true_eq] at h1 h2
      exact hk (h1.1 ▸ h2.1)
    apply congrArg List.length
    apply List.filter_congr
    intro a _
    by_cases h1 : key a = k <;> by_cases h2 : key a ∈ ks <;>
      simp [h1, h2, List.mem_cons]

lemma mem_pivotColumns {l : List Record} {x : String} :
    x ∈ pivotColumns l ↔ x ∈ l.map (fun r => r.depth_label) := by
  unfold pivotColumns
  rw [(List.perm_insertionSort _ _).mem_iff, List.mem_dedup]

lemma mem_pivotIndex {l : List Record} {y : Int} :
    y ∈ pivotIndex l ↔ y ∈ l.map (fun r => r.date_time.year) := by
  unfold pivotIndex
  rw [(List.perm_insertionSort _ _).mem_iff, List.mem_dedup]

lemma nodup_pivotIndex (l : List Record) : (pivotIndex l).Nodup :=
  ((List.perm_insertionSort _ _).nodup_iff).mpr (List.nodup_dedup _)

lemma nodup_selectedColumns (dl : List String) (l : List Record) :
    (selectedColumns dl l).Nodup :=
  List.Nodup.filter _ (by decide)

lemma mem_selectedColumns {dl : List String} {l : List Record} {x : String} :
    x ∈ selectedColumns dl l ↔
      x ∈ (["Low", "Mid", "High"] : List String) ∧ x ∈ dl
        ∧ x ∈ l.map (fun r => r.depth_label) := by
  unfold selectedColumns
  rw [List.mem_filter]
  simp [mem_pivotColumns, and_assoc]

lemma pivotIndex_eq_nil {l : List Record} : pivotIndex l = [] ↔ l = [] := by
  constructor
  · intro h
    have hp := List.perm_insertionSort (fun a b : Int => a ≤ b)
      ((l.map (fun r => r.date_time.year)).dedup)
    unfold pivotIndex at h
    rw [h] at hp
    have hd := hp.symm.eq_nil
    rw [List.dedup_eq_nil, List.map_eq_nil_iff] at hd
    exact hd
  · intro h
    subst h
    rfl

lemma countPair_swap (l : List Record) (y : Int) (c : String) :
    countPair l y c
      = (l.filter (fun r =>
          decide (r.depth_label = c) && decide (r.date_time.year = y))).length := by
  unfold countPair
  apply congrArg List.length
  apply List.filter_congr
  intro a _
  by_cases h1 : a.date_time.year = y <;> by_cases h2 : a.depth_label = c <;>
    simp [h1, h2]

lemma chart_cellSum (l : List Record) (years : List Int) (cols : List String)
    (hy : years.Nodup) (hcov : ∀ r ∈ l, r.date_time.year ∈ years)
    (hc : cols.Nodup) :
    ((years.map (fun y => cols.map (fun c => pivotCell l y c))).map
        (fun row => (row.map (fun o => o.getD 0)).sum)).sum
      = (l.filter (fun r => decide (r.depth_label ∈ cols))).length := by
  rw [List.map_map]
  have step1 : ((fun row => (row.map (fun o : Option Nat => o.getD 0)).sum) ∘
        (fun y => cols.map (fun c => pivotCell l y c)))
      = fun y => (l.filter (fun a =>
          decide (a.date_time.year = y) && decide (a.depth_label ∈ cols))).length := by
    funext y
    show ((cols.map (fun c => pivotCell l y c)).map (fun o => o.getD 0)).sum = _
    rw [List.map_map]
    have hfun : ((fun o : Option Nat => o.getD 0) ∘ (fun c => pivotCell l y c))
        = fun c => (l.filter (fun r =>
            decide (r.depth_label = c) && decide (r.date_time.year = y))).length := by
      funext c
      show (pivotCell l y c).getD 0 = _
      rw [pivotCell_getD, countPair_swap]
    rw [hfun,
      sum_counts_filter l (fun r => r.depth_label)
        (fun r => decide (r.date_time.year = y)) cols hc]
    apply congrArg List.length
    apply List.filter_congr
    intro a _
    by_cases h1 : a.date_time.year = y <;> by_cases h2 : a.depth_label ∈ cols <;>
      simp [h1, h2]
  rw [step1,
    sum_counts_filter l (fun r => r.date_time.year)
      (fun r => decide (r.depth_label ∈ cols)) years hy]
  apply congrArg List.length
  apply List.filter_congr
  intro a ha
  simp [hcov a ha]

lemma cellAt_eval (t : String) (l : List Record) (years : List Int)
    (cols : List String) {y : Int} {c : String} (hy : y ∈ years) (hc : c ∈ cols) :
    (BarFig.chart t years cols
        (years.map (fun y2 => cols.map (fun c2 => pivotCell l y2 c2)))).cellAt y c
      = pivotCell l y c := by
  simp only [BarFig.cellAt]
  rw [lookupIn_map years (fun y2 => cols.map (fun c2 => pivotCell l y2 c2)) y,
    if_pos hy]
  dsimp only
  rw [lookupIn_map cols (fun c2 => pivotCell l y c2) c, if_pos hc]
  rfl

lemma update_bar_chart_eq (tbl : Table) (c : String) (yr : Int × Int)
    (dl : List String) :
    (update_bar_chart tbl c yr dl).1
      = (if pivotIndex (countryYearFiltered tbl.rows c yr) = []
            ∨ selectedColumns dl (countryYearFiltered tbl.rows c yr) = [] then
          BarFig.emptyShell (barTitle c yr)
        else
          BarFig.chart (barTitle c yr)
            (pivotIndex (countryYearFiltered tbl.rows c yr))
            (selectedColumns dl (countryYearFiltered tbl.rows c yr))
            ((pivotIndex (countryYearFiltered tbl.rows c yr)).map
              (fun y => (selectedColumns dl (countryYearFiltered tbl.rows c yr)).map
                (fun cc => pivotCell (countryYearFiltered tbl.rows c yr) y cc)))) := by
  by_cases h : pivotIndex (countryYearFiltered tbl.rows c yr) = []
      ∨ selectedColumns dl (countryYearFiltered tbl.rows c yr) = []
  · simp [update_bar_chart, h]
  · simp [update_bar_chart, h]

lemma update_bar_chart_snd (tbl : Table) (c : String) (yr : Int × Int)
    (dl : List String) : (update_bar_chart tbl c yr dl).2 = tbl := by
  by_cases h : pivotIndex (countryYearFiltered tbl.rows c yr) = []
      ∨ selectedColumns dl (countryYearFiltered tbl.rows c yr) = []
  · simp [update_bar_chart, h]
  · simp [update_bar_chart, h]

/-! Theorems settling the claims. -/

/-- C1: for every source table and valid `(country, year_range)`, a record
is in the bubble-map output (and likewise in the line-chart output) of
`update_bubble_map` exactly when it is a source record whose year lies in
the inclusive range and which matches the selected country, the sentinel
"All Countries" matching everything. -/
theorem geo_trend_filter_correct (tbl : Table) (c : String) (yr : Int × Int)
    (r : Record) :
    (r ∈ (update_bubble_map tbl c yr).1.1.points ↔
      (r ∈ tbl.rows ∧ (yr.1 ≤ r.date_time.year ∧ r.date_time.year ≤ yr.2) ∧
        (c = "All Countries" ∨ r.country = c)))
    ∧ (r ∈ (update_bubble_map tbl c yr).1.2.points ↔
      (r ∈ tbl.rows ∧ (yr.1 ≤ r.date_time.year ∧ r.date_time.year ≤ yr.2) ∧
        (c = "All Countries" ∨ r.country = c))) :=
  ⟨mem_countryYearFiltered, mem_countryYearFiltered⟩

/-- C2: the points plotted by `update_scatter_chart` are exactly the source
records passing the country+year predicate whose depth label is selected:
the returned list IS the filter of the source list (hence no duplication
and no omission), and membership is characterised by the predicate. -/
theorem scatter_exact_set (tbl : Table) (c : String) (dl : List String)
    (yr : Int × Int) :
    ((update_scatter_chart tbl c dl yr).1.points
        = tbl.rows.filter (fun r =>
            (decide (c = "All Countries") || decide (r.country = c))
              && yearBetween yr r && decide (r.depth_label ∈ dl)))
    ∧ (∀ r : Record,
        r ∈ (update_scatter_chart tbl c dl yr).1.points ↔
          (r ∈ tbl.rows ∧ (yr.1 ≤ r.date_time.year ∧ r.date_time.year ≤ yr.2) ∧
            (c = "All Countries" ∨ r.country = c) ∧ r.depth_label ∈ dl)) := by
  have h := scatter_points_eq tbl c dl yr
  constructor
  · rw [h]
    unfold scatterDirectSpec countryYearFiltered
    by_cases hc : c = "All Countries"
    · rw [if_pos hc, List.filter_filter]
      apply List.filter_congr
      intro a _
      cases hyb : yearBetween yr a <;> by_cases h2 : a.depth_label ∈ dl <;>
        simp [hc, hyb, h2]
    · rw [if_neg hc, List.filter_filter]
      apply List.filter_congr
      intro a _
      cases hyb : yearBetween yr a <;> by_cases h2 : a.depth_label ∈ dl <;>
        by_cases h3 : a.country = c <;> simp [hc, hyb, h2, h3]
  · intro r
    rw [h]
    unfold scatterDirectSpec
    rw [List.mem_filter, mem_countryYearFiltered]
    simp [and_assoc]
    try tauto

/-- C10: the scatter selection computed by indexing the country+year
subset with a depth-label mask built over the FULL source table (what
`update_scatter_chart` does) equals applying the depth-label membership
test directly to the filtered subset (`scatterDirectSpec`). -/
theorem scatter_mask_alignment_equiv (tbl : Table) (c : String)
    (dl : List String) (yr : Int × Int) :
    (update_scatter_chart tbl c dl yr).1.points
      = scatterDirectSpec tbl.rows c dl yr :=
  scatter_points_eq tbl c dl yr

/-- C8: invoking any of the four queries twice in succession with the same
inputs, the second against the table state the first call left behind,
returns exactly the first result: the first invocation does not change
what the second returns. -/
theorem query_idempotence :
    (∀ (tbl : Table) (c : String) (yr : Int × Int),
      update_bubble_map ((update_bubble_map tbl c yr).2) c yr
        = update_bubble_map tbl c yr)
    ∧ (∀ (tbl : Table) (c : String) (yr : Int × Int) (dl : List String),
      update_bar_chart ((update_bar_chart tbl c yr dl).2) c yr dl
        = update_bar_chart tbl c yr dl)
    ∧ (∀ (tbl : Table) (c : String) (dl : List String) (yr : Int × Int),
      update_scatter_chart ((update_scatter_chart tbl c dl yr).2) c dl yr
        = update_scatter_chart tbl c dl yr)
    ∧ (∀ (tbl : Table) (yr : Int × Int) (m : Rat),
      update_pie_chart ((update_pie_chart tbl yr m).2) yr m
        = update_pie_chart tbl yr m) := by
  refine ⟨fun tbl c yr => rfl, fun tbl c yr dl => ?_,
    fun tbl c dl yr => rfl, fun tbl yr m => rfl⟩
  rw [update_bar_chart_snd]

/-- C9: no query mutates the source table: after any invocation the table
state equals the load-time state, and in particular the `year` column
assignment inside `update_bar_chart` (which lands on the fresh frame
boolean-mask indexing produced) leaves the source rows and source column
set unchanged. -/
theorem source_table_immutable :
    (∀ (tbl : Table) (c : String) (yr : Int × Int),
      (update_bubble_map tbl c yr).2 = tbl)
    ∧ (∀ (tbl : Table) (c : String) (yr : Int × Int) (dl : List String),
      (update_bar_chart tbl c yr dl).2 = tbl
        ∧ (update_bar_chart tbl c yr dl).2.rows = tbl.rows
        ∧ (update_bar_chart tbl c yr dl).2.extraCols = tbl.extraCols)
    ∧ (∀ (tbl : Table) (c : String) (dl : List String) (yr : Int × Int),
      (update_scatter_chart tbl c dl yr).2 = tbl)
    ∧ (∀ (tbl : Table) (yr : Int × Int) (m : Rat),
      (update_pie_chart tbl yr m).2 = tbl) := by
  refine ⟨fun tbl c yr => rfl, fun tbl c yr dl => ?_,
    fun tbl c dl yr => rfl, fun tbl yr m => rfl⟩
  rw [update_bar_chart_snd]
  exact ⟨rfl, rfl, rfl⟩

/-- C3: with a valid depth selection (a subset of `{Low, Mid, High}`), the
counts summed over all cells of the figure `update_bar_chart` returns
equal the number of records passing the country+year filter whose depth
label is selected. -/
theorem depth_stacked_count_conservation (tbl : Table) (c : String)
    (yr : Int × Int) (dl : List String)
    (hdl : ∀ x ∈ dl, x ∈ (["Low", "Mid", "High"] : List String)) :
    (update_bar_chart tbl c yr dl).1.cellSum
      = ((countryYearFiltered tbl.rows c yr).filter
          (fun r => decide (r.depth_label ∈ dl))).length := by
  rw [update_bar_chart_eq]
  by_cases h : pivotIndex (countryYearFiltered tbl.rows c yr) = []
      ∨ selectedColumns dl (countryYearFiltered tbl.rows c yr) = []
  · rw [if_pos h]
    show 0 = _
    cases h with
    | inl h1 =>
      rw [pivotIndex_eq_nil.mp h1]
      rfl
    | inr h2 =>
      symm
      rw [List.length_eq_zero, List.filter_eq_nil_iff]
      intro r hr
      simp only [decide_eq_true_eq]
      intro hmem
      have : r.depth_label ∈ selectedColumns dl (countryYearFiltered tbl.rows c yr) :=
        mem_selectedColumns.mpr
          ⟨hdl _ hmem, hmem, List.mem_map.mpr ⟨r, hr, rfl⟩⟩
      rw [h2] at this
      exact (List.not_mem_nil _ this).elim
  · rw [if_neg h]
    simp only [BarFig.cellSum]
    rw [chart_cellSum (countryYearFiltered tbl.rows c yr) _ _
      (nodup_pivotIndex _)
      (fun r hr => mem_pivotIndex.mpr (List.mem_map.mpr ⟨r, hr, rfl⟩))
      (nodup_selectedColumns _ _)]
    apply congrArg List.length
    apply List.filter_congr
    intro r hr
    have hmap : r.depth_label ∈
        (countryYearFiltered tbl.rows c yr).map (fun r => r.depth_label) :=
      List.mem_map.mpr ⟨r, hr, rfl⟩
    by_cases hd : r.depth_label ∈ dl
    · have hsel : r.depth_label ∈ selectedColumns dl (countryYearFiltered tbl.rows c yr) :=
        mem_selectedColumns.mpr ⟨hdl _ hd, hd, hmap⟩
      simp [hsel, hd]
    · have hsel : r.depth_label ∉ selectedColumns dl (countryYearFiltered tbl.rows c yr) :=
        fun hmem => hd (mem_selectedColumns.mp hmem).2.1
      simp [hsel, hd]

lemma selectedColumns_eq_spec (dl : List String) (l : List Record) :
    selectedColumns dl l
      = ["Low", "Mid", "High"].filter (fun x =>
          decide (x ∈ dl) && decide (x ∈ l.map (fun r => r.depth_label))) := by
  unfold selectedColumns
  apply List.filter_congr
  intro x _
  by_cases h2 : x ∈ pivotColumns l
  · have h3 := mem_pivotColumns.mp h2
    simp [h2, h3]
  · have h3 : x ∉ l.map (fun r => r.depth_label) :=
      fun hm => h2 (mem_pivotColumns.mpr hm)
    simp [h2, h3]

/-- C4: the bar figure's columns are exactly the depth labels that are
both selected and present among the filtered records, in the fixed order
`[Low, Mid, High]`; and on the figure's axes a `(year, label)` cell is
missing (`none`) exactly when no filtered record has that year and label,
while a present cell carries the exact positive count — never an explicit
zero. -/
theorem depth_stacked_columns_missing_cells (tbl : Table) (c : String)
    (yr : Int × Int) (dl : List String) :
    ((update_bar_chart tbl c yr dl).1.columns
        = ["Low", "Mid", "High"].filter (fun x =>
            decide (x ∈ dl) &&
              decide (x ∈ (countryYearFiltered tbl.rows c yr).map
                (fun r => r.depth_label))))
    ∧ (∀ (y : Int) (lab : String),
        y ∈ (update_bar_chart tbl c yr dl).1.years →
        lab ∈ (update_bar_chart tbl c yr dl).1.columns →
          (((update_bar_chart tbl c yr dl).1.cellAt y lab = none ↔
              countPair (countryYearFiltered tbl.rows c yr) y lab = 0)
            ∧ ∀ n : Nat,
                (update_bar_chart tbl c yr dl).1.cellAt y lab = some n →
                  (n = countPair (countryYearFiltered tbl.rows c yr) y lab
                    ∧ 0 < n))) := by
  rw [update_bar_chart_eq]
  by_cases h : pivotIndex (countryYearFiltered tbl.rows c yr) = []
      ∨ selectedColumns dl (countryYearFiltered tbl.rows c yr) = []
  · rw [if_pos h]
    constructor
    · show [] = _
      rw [← selectedColumns_eq_spec]
      cases h with
      | inl h1 =>
        rw [pivotIndex_eq_nil.mp h1]
        simp [selectedColumns, pivotColumns]
      | inr h2 =>
        exact h2.symm
    · intro y lab hy _
      exact absurd hy (List.not_mem_nil y)
  · rw [if_neg h]
    refine ⟨selectedColumns_eq_spec dl _, ?_⟩
    intro y lab hy hlab
    simp only [BarFig.years, BarFig.columns] at hy hlab
    rw [cellAt_eval _ _ _ _ hy hlab]
    constructor
    · rw [pivotCell_eq]
      by_cases hm : (y, lab) ∈ yearLabelKeys (countryYearFiltered tbl.rows c yr)
      · have hpos := (mem_yearLabelKeys _ y lab).mp hm
        simp [hm]
        omega
      · have hnpos : ¬ 0 < countPair (countryYearFiltered tbl.rows c yr) y lab :=
          fun hp => hm ((mem_yearLabelKeys _ _ _).mpr hp)
        simp [hm]
        omega
    · intro n hn
      rw [pivotCell_eq] at hn
      by_cases hm : (y, lab) ∈ yearLabelKeys (countryYearFiltered tbl.rows c yr)
      · rw [if_pos hm] at hn
        have hn2 := Option.some.inj hn
        exact ⟨hn2.symm, hn2 ▸ (mem_yearLabelKeys _ _ _).mp hm⟩
      · rw [if_neg hm] at hn
        simp at hn

/-- C5: `update_pie_chart` filters by year range and magnitude threshold
only (no country test), returns `min 5 k` slices where `k` is the number
of distinct countries among the filtered records, and each slice's count
is the exact number of filtered records of that slice's country. -/
theorem pie_filter_and_slices (tbl : Table) (yr : Int × Int) (m : Rat) :
    (∀ r : Record, r ∈ pieFiltered tbl.rows yr m ↔
        (r ∈ tbl.rows ∧ (yr.1 ≤ r.date_time.year ∧ r.date_time.year ≤ yr.2)
          ∧ m ≤ r.magnitude))
    ∧ (update_pie_chart tbl yr m).1.slices.length
        = min 5 (((pieFiltered tbl.rows yr m).map (fun r => r.country)).dedup).length
    ∧ ∀ s ∈ (update_pie_chart tbl yr m).1.slices,
        s.2 = ((pieFiltered tbl.rows yr m).filter
          (fun r => decide (r.country = s.1))).length := by
  refine ⟨?_, ?_, ?_⟩
  · intro r
    unfold pieFiltered yearBetween
    rw [List.mem_filter]
    simp [and_assoc]
  · show ((countryGroups (pieFiltered tbl.rows yr m)).take 5).length = _
    rw [List.length_take]
    unfold countryGroups
    rw [List.length_map, List.length_insertionSort]
  · intro s hs
    replace hs : s ∈ countryGroups (pieFiltered tbl.rows yr m) :=
      List.take_subset 5 _ hs
    unfold countryGroups at hs
    obtain ⟨cc, _, hcc⟩ := List.mem_map.mp hs
    rw [← hcc]

/-- C6: the slices of `update_pie_chart` are the first five groups in the
order the country grouping produces them, not a count-descending top five:
on `sixCountryTable` the group-order slices differ from the
count-descending selection, which would contain the `("F", 2)` group that
the actual output omits. -/
theorem pie_slice_selection_order :
    (∀ (tbl : Table) (yr : Int × Int) (m : Rat),
      (update_pie_chart tbl yr m).1.slices
        = (countryGroups (pieFiltered tbl.rows yr m)).take 5)
    ∧ (update_pie_chart sixCountryTable (2001, 2023) 0).1.slices
        ≠ topCountriesByCountSpec (pieFiltered sixCountryTable.rows (2001, 2023) 0)
    ∧ ("F", 2) ∈ topCountriesByCountSpec
        (pieFiltered sixCountryTable.rows (2001, 2023) 0)
    ∧ ("F", 2) ∉ (update_pie_chart sixCountryTable (2001, 2023) 0).1.slices := by
  refine ⟨fun tbl yr m => rfl, ?_, ?_, ?_⟩ <;> decide

/-- C7: no combination of valid-typed inputs makes a query fail: the empty
pivot (no surviving rows, or no surviving columns — in particular an empty
depth selection) yields the bare chart shell carrying only the title, and
an empty filter result yields empty point or slice lists in the other
three queries. -/
theorem empty_result_never_error :
    (∀ (tbl : Table) (c : String) (yr : Int × Int) (dl : List String),
      pivotIndex (countryYearFiltered tbl.rows c yr) = []
          ∨ selectedColumns dl (countryYearFiltered tbl.rows c yr) = [] →
        (update_bar_chart tbl c yr dl).1 = BarFig.emptyShell (barTitle c yr))
    ∧ (∀ (tbl : Table) (c : String) (yr : Int × Int),
      (update_bar_chart tbl c yr []).1 = BarFig.emptyShell (barTitle c yr))
    ∧ (∀ (tbl : Table) (c : String) (yr : Int × Int),
      countryYearFiltered tbl.rows c yr = [] →
        (update_bubble_map tbl c yr).1.1.points = []
          ∧ (update_bubble_map tbl c yr).1.2.points = [])
    ∧ (∀ (tbl : Table) (c : String) (dl : List String) (yr : Int × Int),
      countryYearFiltered tbl.rows c yr = [] →
        (update_scatter_chart tbl c dl yr).1.points = [])
    ∧ (∀ (tbl : Table) (yr : Int × Int) (m : Rat),
      pieFiltered tbl.rows yr m = [] →
        (update_pie_chart tbl yr m).1.slices = []) := by
  refine ⟨?_, ?_, ?_, ?_, ?_⟩
  · intro tbl c yr dl h
    rw [update_bar_chart_eq, if_pos h]
  · intro tbl c yr
    rw [update_bar_chart_eq, if_pos]
    right
    simp [selectedColumns]
  · intro tbl c yr h
    exact ⟨h, h⟩
  · intro tbl c dl yr h
    rw [scatter_points_eq]
    unfold scatterDirectSpec
    rw [h]
    rfl
  · intro tbl yr m h
    show ((countryGroups (pieFiltered tbl.rows yr m)).take 5) = []
    rw [h]
    rfl

/-- Witness for C3: `depth_stacked_count_conservation` instantiated on
`sampleTable` with the selection `[Low, High]`. -/
theorem depth_stacked_count_conservation_witness :
    (update_bar_chart sampleTable "All Countries" (2010, 2012)
        ["Low", "High"]).1.cellSum
      = ((countryYearFiltered sampleTable.rows "All Countries" (2010, 2012)).filter
          (fun r => decide (r.depth_label ∈ (["Low", "High"] : List String)))).length :=
  depth_stacked_count_conservation sampleTable "All Countries" (2010, 2012)
    ["Low", "High"] (by decide)

/-- Witness for C4: `depth_stacked_columns_missing_cells` instantiated on
`sampleTable` at the cell `(2010, Low)`. -/
theorem depth_stacked_columns_missing_cells_witness :
    (((update_bar_chart sampleTable "All Countries" (2010, 2012)
          ["Low", "Mid", "High"]).1.cellAt 2010 "Low" = none ↔
        countPair (countryYearFiltered sampleTable.rows "All Countries" (2010, 2012))
          2010 "Low" = 0)
      ∧ ∀ n : Nat,
          (update_bar_chart sampleTable "All Countries" (2010, 2012)
              ["Low", "Mid", "High"]).1.cellAt 2010 "Low" = some n →
            (n = countPair
                (countryYearFiltered sampleTable.rows "All Countries" (2010, 2012))
                2010 "Low"
              ∧ 0 < n)) :=
  (depth_stacked_columns_missing_cells sampleTable "All Countries" (2010, 2012)
    ["Low", "Mid", "High"]).2 2010 "Low" (by decide) (by decide)

/-- Witness for C5: `pie_filter_and_slices` instantiated on `sampleTable`
at the slice `("Chile", 2)`. -/
theorem pie_filter_and_slices_witness :
    (2 : Nat) = ((pieFiltered sampleTable.rows (2010, 2012) 6).filter
        (fun r => decide (r.country = "Chile"))).length :=
  (pie_filter_and_slices sampleTable (2010, 2012) 6).2.2 ("Chile", 2) (by decide)

/-- Witness for C7: `empty_result_never_error` instantiated on
`sampleTable` with a country absent from the data. -/
theorem empty_result_never_error_witness :
    (update_bar_chart sampleTable "Atlantis" (2010, 2012) ["Low"]).1
      = BarFig.emptyShell (barTitle "Atlantis" (2010, 2012)) :=
  empty_result_never_error.1 sampleTable "Atlantis" (2010, 2012) ["Low"]
    (Or.inl (by decide))

end Quake
